import Mathlib

/-!
# Verification of the trading-bot signal/risk/settlement pipeline

Shallow embedding of the core pipeline of the repository:

* `src/trading/strategy.py` — `TradingStrategy.generate_signals` and the
  per-bar condition checks (signal generator);
* `src/trading/risk_management.py` — `RiskManagement.apply_risk_management`
  and the level/hit helper functions (position & risk state machine);
* `src/backtest/backtest.py` — `Backtest._calculate_pnl` (settlement engine).

Prices and indicator values are modelled as rationals (`ℚ`); the Python
code uses floats but every claim under study is algebraic, not about
rounding.  Pandas `NaN` cells (checked with `pd.isna`) are modelled as
`Option` with `none` for `NaN`; a Python comparison `NaN > 0` is `False`,
modelled by matching on the `Option`.  The DataFrame, which each stage
extends with fresh columns, is modelled as a list of rows, each stage's
row type nesting the previous stage's row, so that "existing columns are
never altered" is visible structurally.
-/

set_option maxHeartbeats 1600000

namespace TradingBot

/-- Direction enum, from `class Position(Enum)` in `src/trading/strategy.py`:
`LONG`, `SHORT`, `NEUTRAL`. -/
inductive Position where
  | LONG
  | SHORT
  | NEUTRAL
deriving DecidableEq, Repr

/-- One input row of the DataFrame handed to `generate_signals`: the OHLCV
fields plus the indicator columns that the strategy, risk-management and
backtest code read (`close`, `vwap`, `ema_fast`, `ema_slow`, `macd`,
`macd_signal`, `macd_histogram`, `rsi_bullish_divergence`,
`rsi_bearish_divergence`, `atr`).  `time` models the DataFrame index
(`data.index[idx]`). -/
structure Bar where
  time : ℕ
  openPrice : ℚ
  high : ℚ
  low : ℚ
  close : ℚ
  volume : ℚ
  vwap : ℚ
  ema_fast : ℚ
  ema_slow : ℚ
  macd : ℚ
  macd_signal : ℚ
  macd_histogram : ℚ
  rsi_bullish_divergence : Bool
  rsi_bearish_divergence : Bool
  atr : ℚ
deriving DecidableEq, Repr

/-- Embeds `TradingStrategy.check_long_condition_1` for `idx ≥ 1`, on the pair
(bar `idx-1`, bar `idx`): price above VWAP, EMA bullish crossover, MACD
bullish crossover.  (The `idx < 1` early-return is handled by the caller's
loop starting at index 1.) -/
def check_long_condition_1 (prev curr : Bar) : Bool :=
  decide (curr.close > curr.vwap) &&
  (decide (prev.ema_fast ≤ prev.ema_slow) && decide (curr.ema_fast > curr.ema_slow)) &&
  (decide (prev.macd ≤ prev.macd_signal) && decide (curr.macd > curr.macd_signal))

/-- Embeds `TradingStrategy.check_long_condition_2`: RSI bullish divergence flag
and MACD bullish crossover. -/
def check_long_condition_2 (prev curr : Bar) : Bool :=
  curr.rsi_bullish_divergence &&
  (decide (prev.macd ≤ prev.macd_signal) && decide (curr.macd > curr.macd_signal))

/-- Embeds `TradingStrategy.check_long_condition_3`: EMA bullish crossover and
MACD bullish crossover. -/
def check_long_condition_3 (prev curr : Bar) : Bool :=
  (decide (prev.ema_fast ≤ prev.ema_slow) && decide (curr.ema_fast > curr.ema_slow)) &&
  (decide (prev.macd ≤ prev.macd_signal) && decide (curr.macd > curr.macd_signal))

/-- Embeds `TradingStrategy.check_short_condition_1`: price below VWAP, EMA
bearish crossover, MACD bearish crossover, MACD histogram negative. -/
def check_short_condition_1 (prev curr : Bar) : Bool :=
  decide (curr.close < curr.vwap) &&
  (decide (prev.ema_fast ≥ prev.ema_slow) && decide (curr.ema_fast < curr.ema_slow)) &&
  (decide (prev.macd ≥ prev.macd_signal) && decide (curr.macd < curr.macd_signal)) &&
  decide (curr.macd_histogram < 0)

/-- Embeds `TradingStrategy.check_short_condition_2`: RSI bearish divergence flag
and MACD bearish crossover. -/
def check_short_condition_2 (prev curr : Bar) : Bool :=
  curr.rsi_bearish_divergence &&
  (decide (prev.macd ≥ prev.macd_signal) && decide (curr.macd < curr.macd_signal))

/-- Embeds `TradingStrategy.check_short_condition_3`: EMA bearish crossover and
MACD bearish crossover. -/
def check_short_condition_3 (prev curr : Bar) : Bool :=
  (decide (prev.ema_fast ≥ prev.ema_slow) && decide (curr.ema_fast < curr.ema_slow)) &&
  (decide (prev.macd ≥ prev.macd_signal) && decide (curr.macd < curr.macd_signal))

/-- Embeds `TradingStrategy.check_ema_bearish_crossover`. -/
def check_ema_bearish_crossover (prev curr : Bar) : Bool :=
  decide (prev.ema_fast ≥ prev.ema_slow) && decide (curr.ema_fast < curr.ema_slow)

/-- Embeds `TradingStrategy.check_ema_bullish_crossover`. -/
def check_ema_bullish_crossover (prev curr : Bar) : Bool :=
  decide (prev.ema_fast ≤ prev.ema_slow) && decide (curr.ema_fast > curr.ema_slow)

/-- One row after `generate_signals`: the input bar plus the five columns
the generator appends (`long_signal`, `short_signal`, `exit_long_signal`,
`exit_short_signal`, `signal_trigger`). -/
structure SigRow where
  bar : Bar
  long_signal : Bool
  short_signal : Bool
  exit_long_signal : Bool
  exit_short_signal : Bool
  signal_trigger : String
deriving DecidableEq, Repr

/-- The freshly initialized signal columns of a row the generator's loop
body never writes (all signals `False`, trigger `""`). -/
def blankSigRow (b : Bar) : SigRow :=
  { bar := b, long_signal := false, short_signal := false
    exit_long_signal := false, exit_short_signal := false, signal_trigger := "" }

/-- One iteration of the loop in `TradingStrategy.generate_signals`
(index `idx ≥ 1`): given bar `idx-1`, bar `idx` and the generator's own
position tracker, produce the signal row for `idx` and the new tracker. -/
def genStep (prev curr : Bar) (pos : Position) : SigRow × Position :=
  match pos with
  | Position.NEUTRAL =>
    if check_long_condition_1 prev curr then
      ({ blankSigRow curr with long_signal := true, signal_trigger := "LONG_COND1" },
       Position.LONG)
    else if check_long_condition_2 prev curr then
      ({ blankSigRow curr with long_signal := true, signal_trigger := "LONG_COND2" },
       Position.LONG)
    else if check_long_condition_3 prev curr then
      ({ blankSigRow curr with long_signal := true, signal_trigger := "LONG_COND3" },
       Position.LONG)
    else if check_short_condition_1 prev curr then
      ({ blankSigRow curr with short_signal := true, signal_trigger := "SHORT_COND1" },
       Position.SHORT)
    else if check_short_condition_2 prev curr then
      ({ blankSigRow curr with short_signal := true, signal_trigger := "SHORT_COND2" },
       Position.SHORT)
    else if check_short_condition_3 prev curr then
      ({ blankSigRow curr with short_signal := true, signal_trigger := "SHORT_COND3" },
       Position.SHORT)
    else (blankSigRow curr, Position.NEUTRAL)
  | Position.LONG =>
    if check_ema_bearish_crossover prev curr then
      ({ blankSigRow curr with exit_long_signal := true, signal_trigger := "EXIT_LONG_EMA" },
       Position.NEUTRAL)
    else (blankSigRow curr, Position.LONG)
  | Position.SHORT =>
    if check_ema_bullish_crossover prev curr then
      ({ blankSigRow curr with exit_short_signal := true, signal_trigger := "EXIT_SHORT_EMA" },
       Position.NEUTRAL)
    else (blankSigRow curr, Position.SHORT)

/-- The loop of `generate_signals` from index 1 on: `prev` is bar `idx-1`. -/
def generateSignalsAux (prev : Bar) : List Bar → Position → List SigRow
  | [], _ => []
  | curr :: rest, pos =>
    (genStep prev curr pos).1 :: generateSignalsAux curr rest (genStep prev curr pos).2

/-- Embeds `TradingStrategy.generate_signals`: initialize the five signal columns
(`False`/`""` everywhere), then run the loop for `idx in range(1, len(data))`
with the tracker starting `NEUTRAL`.  Row 0 keeps its initialized columns. -/
def generate_signals : List Bar → List SigRow
  | [] => []
  | b :: rest => blankSigRow b :: generateSignalsAux b rest Position.NEUTRAL

/-!
## Risk management (`src/trading/risk_management.py`)
-/

/-- The three ATR multipliers the module reads from `src/config.py`
(`STOP_LOSS_ATR_MULTIPLIER`, `TAKE_PROFIT1_ATR_MULTIPLIER`,
`TAKE_PROFIT2_ATR_MULTIPLIER`).  The Python code reads module-level
constants; the embedding passes them explicitly. -/
structure RiskConfig where
  stop_loss_atr_multiplier : ℚ
  take_profit1_atr_multiplier : ℚ
  take_profit2_atr_multiplier : ℚ
deriving DecidableEq, Repr

/-- The values in the repository's `src/config.py`:
`STOP_LOSS_ATR_MULTIPLIER = 2.0`, `TAKE_PROFIT1_ATR_MULTIPLIER = 1.5`,
`TAKE_PROFIT2_ATR_MULTIPLIER = 3.0`. -/
def repoConfig : RiskConfig :=
  { stop_loss_atr_multiplier := 2
    take_profit1_atr_multiplier := 3/2
    take_profit2_atr_multiplier := 3 }

/-- Embeds `RiskManagement.calculate_stop_loss_level`: `entry − ATR·k_sl` for LONG,
`entry + ATR·k_sl` for SHORT, `None` otherwise. -/
def calculate_stop_loss_level (cfg : RiskConfig) (entry_price atr : ℚ) :
    Position → Option ℚ
  | Position.LONG => some (entry_price - atr * cfg.stop_loss_atr_multiplier)
  | Position.SHORT => some (entry_price + atr * cfg.stop_loss_atr_multiplier)
  | Position.NEUTRAL => none

/-- Embeds `RiskManagement.calculate_take_profit_levels`: `(entry ± ATR·k_tp1,
entry ± ATR·k_tp2)` for LONG/SHORT, `(None, None)` otherwise. -/
def calculate_take_profit_levels (cfg : RiskConfig) (entry_price atr : ℚ) :
    Position → Option ℚ × Option ℚ
  | Position.LONG =>
      (some (entry_price + atr * cfg.take_profit1_atr_multiplier),
       some (entry_price + atr * cfg.take_profit2_atr_multiplier))
  | Position.SHORT =>
      (some (entry_price - atr * cfg.take_profit1_atr_multiplier),
       some (entry_price - atr * cfg.take_profit2_atr_multiplier))
  | Position.NEUTRAL => (none, none)

/-- Embeds `RiskManagement.check_stop_loss_hit`: LONG when price ≤ level, SHORT
when price ≥ level, otherwise `False`. -/
def check_stop_loss_hit (current_price stop_loss_level : ℚ) : Position → Bool
  | Position.LONG => decide (current_price ≤ stop_loss_level)
  | Position.SHORT => decide (current_price ≥ stop_loss_level)
  | Position.NEUTRAL => false

/-- Embeds `RiskManagement.check_take_profit_hit`: LONG when price ≥ level, SHORT
when price ≤ level, otherwise `False`. -/
def check_take_profit_hit (current_price take_profit_level : ℚ) : Position → Bool
  | Position.LONG => decide (current_price ≥ take_profit_level)
  | Position.SHORT => decide (current_price ≤ take_profit_level)
  | Position.NEUTRAL => false

/-- One row after `apply_risk_management`: the signal row plus the ten
columns the risk module appends.  Columns initialized to `np.nan` (read
back with `pd.isna` downstream) are `Option`; the `position` column holds
`None` or the enum value string. -/
structure RiskRow where
  sig : SigRow
  stop_loss : Option ℚ
  take_profit1 : Option ℚ
  take_profit2 : Option ℚ
  position : Option Position
  entry_price : Option ℚ
  exit_price : Option ℚ
  exit_reason : String
  tp1_hit : Bool
  tp2_hit : Bool
  sl_hit : Bool
deriving DecidableEq, Repr

/-- The freshly initialized risk columns of a row the loop body never
writes. -/
def blankRiskRow (s : SigRow) : RiskRow :=
  { sig := s, stop_loss := none, take_profit1 := none, take_profit2 := none
    position := none, entry_price := none, exit_price := none
    exit_reason := "", tp1_hit := false, tp2_hit := false, sl_hit := false }

/-- The local loop state of `apply_risk_management`: `current_position`,
`entry_price`, `stop_loss`, `take_profit1`, `take_profit2`,
`tp1_exit_executed`.  (`entry_idx` is also tracked in the source but never
read afterwards, so it is omitted.) -/
structure RiskState where
  current_position : Position
  entryPrice : ℚ
  stopLoss : ℚ
  takeProfit1 : ℚ
  takeProfit2 : ℚ
  tp1_exit_executed : Bool
deriving DecidableEq, Repr

/-- Initial loop state of `apply_risk_management`: `NEUTRAL`, all numeric
locals 0, `tp1_exit_executed = False`. -/
def initialRiskState : RiskState :=
  { current_position := Position.NEUTRAL, entryPrice := 0, stopLoss := 0
    takeProfit1 := 0, takeProfit2 := 0, tp1_exit_executed := false }

/-- The copied-forward row written at the top of the active-position
branches of `apply_risk_management` (`position`, `entry_price`,
`stop_loss`, `take_profit1`, `take_profit2` from the loop state; the other
columns keep their initialized values). -/
def carryRow (s : SigRow) (st : RiskState) : RiskRow :=
  { blankRiskRow s with
      position := some st.current_position
      entry_price := some st.entryPrice
      stop_loss := some st.stopLoss
      take_profit1 := some st.takeProfit1
      take_profit2 := some st.takeProfit2 }

/-- One iteration (`idx ≥ 1`) of the loop in
`RiskManagement.apply_risk_management`: reads the four signal columns of
the current row, dispatches on `current_position`, writes the risk columns
of the row and updates the loop state.  The source's locals that a branch
leaves stale (e.g. `entry_price` after a close) are carried unchanged, as
in the Python code. -/
def riskStep (cfg : RiskConfig) (r : SigRow) (st : RiskState) : RiskRow × RiskState :=
  match st.current_position with
  | Position.NEUTRAL =>
    if r.long_signal then
      let entry := r.bar.close
      let atr := r.bar.atr
      let sl := (calculate_stop_loss_level cfg entry atr Position.LONG).getD 0
      let tps := calculate_take_profit_levels cfg entry atr Position.LONG
      let tp1 := tps.1.getD 0
      let tp2 := tps.2.getD 0
      ({ blankRiskRow r with
           position := some Position.LONG, entry_price := some entry
           stop_loss := some sl, take_profit1 := some tp1, take_profit2 := some tp2 },
       { current_position := Position.LONG, entryPrice := entry, stopLoss := sl
         takeProfit1 := tp1, takeProfit2 := tp2, tp1_exit_executed := false })
    else if r.short_signal then
      let entry := r.bar.close
      let atr := r.bar.atr
      let sl := (calculate_stop_loss_level cfg entry atr Position.SHORT).getD 0
      let tps := calculate_take_profit_levels cfg entry atr Position.SHORT
      let tp1 := tps.1.getD 0
      let tp2 := tps.2.getD 0
      ({ blankRiskRow r with
           position := some Position.SHORT, entry_price := some entry
           stop_loss := some sl, take_profit1 := some tp1, take_profit2 := some tp2 },
       { current_position := Position.SHORT, entryPrice := entry, stopLoss := sl
         takeProfit1 := tp1, takeProfit2 := tp2, tp1_exit_executed := false })
    else
      (blankRiskRow r, st)
  | Position.LONG =>
    let base := carryRow r st
    let current_price := r.bar.close
    if check_stop_loss_hit current_price st.stopLoss Position.LONG then
      ({ base with exit_price := some st.stopLoss, exit_reason := "STOP_LOSS", sl_hit := true },
       { st with current_position := Position.NEUTRAL })
    else if !st.tp1_exit_executed &&
        check_take_profit_hit current_price st.takeProfit1 Position.LONG then
      ({ base with tp1_hit := true },
       { st with tp1_exit_executed := true })
    else if check_take_profit_hit current_price st.takeProfit2 Position.LONG then
      ({ base with exit_price := some st.takeProfit2, exit_reason := "TAKE_PROFIT2",
                   tp2_hit := true },
       { st with current_position := Position.NEUTRAL })
    else if r.exit_long_signal then
      ({ base with exit_price := some current_price, exit_reason := "STRATEGY_EXIT" },
       { st with current_position := Position.NEUTRAL })
    else
      (base, st)
  | Position.SHORT =>
    let base := carryRow r st
    let current_price := r.bar.close
    if check_stop_loss_hit current_price st.stopLoss Position.SHORT then
      ({ base with exit_price := some st.stopLoss, exit_reason := "STOP_LOSS", sl_hit := true },
       { st with current_position := Position.NEUTRAL })
    else if !st.tp1_exit_executed &&
        check_take_profit_hit current_price st.takeProfit1 Position.SHORT then
      ({ base with tp1_hit := true },
       { st with tp1_exit_executed := true })
    else if check_take_profit_hit current_price st.takeProfit2 Position.SHORT then
      ({ base with exit_price := some st.takeProfit2, exit_reason := "TAKE_PROFIT2",
                   tp2_hit := true },
       { st with current_position := Position.NEUTRAL })
    else if r.exit_short_signal then
      ({ base with exit_price := some current_price, exit_reason := "STRATEGY_EXIT" },
       { st with current_position := Position.NEUTRAL })
    else
      (base, st)

/-- The loop of `apply_risk_management` from index 1 on. -/
def applyRiskAux (cfg : RiskConfig) : List SigRow → RiskState → List RiskRow
  | [], _ => []
  | r :: rest, st =>
    (riskStep cfg r st).1 :: applyRiskAux cfg rest (riskStep cfg r st).2

/-- Embeds `RiskManagement.apply_risk_management`: initialize the ten risk
columns, then run the loop for `idx in range(1, len(data))` starting from
`initialRiskState`.  Row 0 keeps its initialized columns. -/
def apply_risk_management (cfg : RiskConfig) : List SigRow → List RiskRow
  | [] => []
  | r :: rest => blankRiskRow r :: applyRiskAux cfg rest initialRiskState

/-!
## Settlement engine (`Backtest._calculate_pnl` in `src/backtest/backtest.py`)
-/

/-- One row after `_calculate_pnl`: the risk row plus the five columns the
backtest appends (`pnl`, `cumulative_pnl`, `equity`, `drawdown`,
`max_equity`). -/
structure PnlRow where
  risk : RiskRow
  pnl : ℚ
  cumulative_pnl : ℚ
  equity : ℚ
  drawdown : ℚ
  max_equity : ℚ
deriving DecidableEq, Repr

/-- A trade dict appended to `trades` in `_calculate_pnl`. -/
structure Trade where
  entry_time : ℕ
  exit_time : ℕ
  position : Option Position
  entryPrice : ℚ
  exitPrice : ℚ
  pnl : ℚ
  exit_reason : String
deriving DecidableEq, Repr

/-- The local position-tracking state of `_calculate_pnl`:
`current_position` (`None` or the position string), `position_size`,
`entry_price`. -/
structure PnlState where
  current_position : Option Position
  position_size : ℚ
  entryPrice : ℚ
deriving DecidableEq, Repr

/-- Initial tracking state of `_calculate_pnl`: `None`, 0, 0. -/
def initialPnlState : PnlState :=
  { current_position := none, position_size := 0, entryPrice := 0 }

/-- Row 0 of `_calculate_pnl`'s output: the initialized P&L columns
(`pnl = 0`, `cumulative_pnl = 0`, `equity = initial_capital`,
`drawdown = 0`, `max_equity = initial_capital`), never touched by the loop
that starts at index 1. -/
def initPnlRow (initial_capital : ℚ) (r : RiskRow) : PnlRow :=
  { risk := r, pnl := 0, cumulative_pnl := 0, equity := initial_capital
    drawdown := 0, max_equity := initial_capital }

/-- The Python test `data['exit_price'].iloc[idx] > 0`: a `NaN` cell
compares `False`. -/
def exitPriceGtZero : Option ℚ → Bool
  | some p => decide (p > 0)
  | none => false

/-- One iteration (`idx ≥ 1`) of the loop in `Backtest._calculate_pnl`.
`prev` is output row `idx-1` (the loop reads `position[idx-1]`,
`equity[idx-1]`, `data.index[idx-1]` from the table it is filling).  The
accumulator columns are written as
`cumulative_pnl[idx] = pnl[0..idx].sum()` — since each `pnl` cell is
written exactly once and `pnl[0] = 0`, this equals
`cumulative_pnl[idx-1] + pnl[idx]` — and
`max_equity[idx] = max(equity[0..idx].max(), max_equity[idx-1])`, which
equals `max(max_equity[idx-1], equity[idx])` because `max_equity[idx-1]`
is inductively the running maximum of `equity[0..idx-1]`.
Returns the output row, the trades appended this bar, and the new state. -/
def pnlStep (initial_capital position_size_frac : ℚ)
    (prev : PnlRow) (r : RiskRow) (st : PnlState) :
    PnlRow × List Trade × PnlState :=
  -- `if pd.isna(data['position'].iloc[idx-1]) and not pd.isna(...[idx])`
  let st1 : PnlState :=
    if prev.risk.position.isNone && r.position.isSome then
      { current_position := r.position
        entryPrice := r.entry_price.getD 0
        position_size := position_size_frac * prev.equity / r.entry_price.getD 0 }
    else st
  -- `if not pd.isna(position[idx]) and exit_price[idx] > 0: ... elif ... tp1_hit[idx]:`
  let res : ℚ × List Trade × PnlState :=
    if r.position.isSome && exitPriceGtZero r.exit_price then
      let exitP := r.exit_price.getD 0
      let pnl :=
        if st1.current_position = some Position.LONG then
          st1.position_size * (exitP - st1.entryPrice)
        else
          st1.position_size * (st1.entryPrice - exitP)
      (pnl,
       [{ entry_time := prev.risk.sig.bar.time, exit_time := r.sig.bar.time
          position := st1.current_position, entryPrice := st1.entryPrice
          exitPrice := exitP, pnl := pnl, exit_reason := r.exit_reason }],
       initialPnlState)
    else if r.position.isSome && r.tp1_hit then
      let tp1 := r.take_profit1.getD 0
      let pnl :=
        if st1.current_position = some Position.LONG then
          (st1.position_size * (1/2)) * (tp1 - st1.entryPrice)
        else
          (st1.position_size * (1/2)) * (st1.entryPrice - tp1)
      (pnl,
       [{ entry_time := prev.risk.sig.bar.time, exit_time := r.sig.bar.time
          position := st1.current_position, entryPrice := st1.entryPrice
          exitPrice := tp1, pnl := pnl, exit_reason := "TAKE_PROFIT1" }],
       { st1 with position_size := st1.position_size * (1/2) })
    else
      (0, [], st1)
  let cum := prev.cumulative_pnl + res.1
  let eq := initial_capital + cum
  let maxEq := max prev.max_equity eq
  let dd := if maxEq > 0 then (maxEq - eq) / maxEq * 100 else 0
  ({ risk := r, pnl := res.1, cumulative_pnl := cum, equity := eq
     drawdown := dd, max_equity := maxEq },
   res.2.1, res.2.2)

/-- The loop of `_calculate_pnl` from index 1 on; also returns the list of
tracking states after each iteration (instrumentation used only to state
properties of the internal `position_size`). -/
def calcPnlAux (ic psf : ℚ) (prev : PnlRow) :
    List RiskRow → PnlState → List PnlRow × List Trade × List PnlState
  | [], _ => ([], [], [])
  | r :: rest, st =>
    ((pnlStep ic psf prev r st).1 ::
       (calcPnlAux ic psf (pnlStep ic psf prev r st).1 rest (pnlStep ic psf prev r st).2.2).1,
     (pnlStep ic psf prev r st).2.1 ++
       (calcPnlAux ic psf (pnlStep ic psf prev r st).1 rest (pnlStep ic psf prev r st).2.2).2.1,
     (pnlStep ic psf prev r st).2.2 ::
       (calcPnlAux ic psf (pnlStep ic psf prev r st).1 rest (pnlStep ic psf prev r st).2.2).2.2)

/-- Embeds `Backtest._calculate_pnl`: initialize the five P&L columns, then run
the loop for `idx in range(1, len(data))`.  Returns the output rows and
the collected `trades` list.  `ic` is `initial_capital`, `psf` the
`position_size` fraction (constructor default 0.1). -/
def calculate_pnl (ic psf : ℚ) : List RiskRow → List PnlRow × List Trade
  | [] => ([], [])
  | r :: rest =>
    (initPnlRow ic r :: (calcPnlAux ic psf (initPnlRow ic r) rest initialPnlState).1,
     (calcPnlAux ic psf (initPnlRow ic r) rest initialPnlState).2.1)

/-- The internal sizing states of `_calculate_pnl` (state after each loop
iteration, i.e. entry `i` is the state after processing row `i+1`). -/
def calcPnlStates (ic psf : ℚ) : List RiskRow → List PnlState
  | [] => []
  | r :: rest => (calcPnlAux ic psf (initPnlRow ic r) rest initialPnlState).2.2

/-- The core pipeline of `Backtest.run` after indicators are attached:
`generate_signals`, then `apply_risk_management`, then `_calculate_pnl`. -/
def runPipeline (cfg : RiskConfig) (ic psf : ℚ) (bars : List Bar) :
    List PnlRow × List Trade :=
  calculate_pnl ic psf (apply_risk_management cfg (generate_signals bars))

/-!
## Shared fixtures for concrete evaluations
-/

/-- Build a bar from the fields the pipeline reads; OHLV fields that no
claim depends on are zero, divergence flags are `false`. -/
def mkBar (t : ℕ) (close vwap ef es macd sig hist atr : ℚ) : Bar :=
  { time := t, openPrice := 0, high := 0, low := 0, close := close, volume := 0
    vwap := vwap, ema_fast := ef, ema_slow := es, macd := macd
    macd_signal := sig, macd_histogram := hist
    rsi_bullish_divergence := false, rsi_bearish_divergence := false, atr := atr }

/-- Default bar used with `List.getD`. -/
def dummyBar : Bar := mkBar 0 0 0 0 0 0 0 0 0

/-- Default signal row used with `List.getD`. -/
def dummySigRow : SigRow := blankSigRow dummyBar

/-- Default risk row used with `List.getD`. -/
def dummyRiskRow : RiskRow := blankRiskRow dummySigRow

/-- Default settlement row used with `List.getD`. -/
def dummyPnlRow : PnlRow := initPnlRow 0 dummyRiskRow

/-!
## Claims
-/

/-- Claim C1: while a position is open, the risk state machine evaluates, in
this priority order and applying only the first match for the bar:
(1) stop-loss (LONG: close ≤ stop_loss, SHORT: close ≥ stop_loss), full
close at the `stop_loss` price with reason `STOP_LOSS`; (2) take-profit-1,
only if not yet consumed, marking `tp1_hit` and consuming TP1 without
closing; (3) take-profit-2, full close at the `tp2` price with reason
`TAKE_PROFIT2`; (4) a direction-matching strategy exit signal, full close
at the bar's close with reason `STRATEGY_EXIT`; otherwise nothing happens.
Case (2) carries no condition on `tp2`, so a bar breaching both an
unconsumed `tp1` and `tp2` applies only TP1. -/
theorem C1_risk_priority (cfg : RiskConfig) (r : SigRow) (st : RiskState)
    (h : st.current_position ≠ Position.NEUTRAL) :
    (check_stop_loss_hit r.bar.close st.stopLoss st.current_position = true →
      riskStep cfg r st =
        ({ carryRow r st with exit_price := some st.stopLoss,
                              exit_reason := "STOP_LOSS", sl_hit := true },
         { st with current_position := Position.NEUTRAL })) ∧
    (check_stop_loss_hit r.bar.close st.stopLoss st.current_position = false →
     st.tp1_exit_executed = false →
     check_take_profit_hit r.bar.close st.takeProfit1 st.current_position = true →
      riskStep cfg r st =
        ({ carryRow r st with tp1_hit := true },
         { st with tp1_exit_executed := true })) ∧
    (check_stop_loss_hit r.bar.close st.stopLoss st.current_position = false →
     (st.tp1_exit_executed = true ∨
      check_take_profit_hit r.bar.close st.takeProfit1 st.current_position = false) →
     check_take_profit_hit r.bar.close st.takeProfit2 st.current_position = true →
      riskStep cfg r st =
        ({ carryRow r st with exit_price := some st.takeProfit2,
                              exit_reason := "TAKE_PROFIT2", tp2_hit := true },
         { st with current_position := Position.NEUTRAL })) ∧
    (check_stop_loss_hit r.bar.close st.stopLoss st.current_position = false →
     (st.tp1_exit_executed = true ∨
      check_take_profit_hit r.bar.close st.takeProfit1 st.current_position = false) →
     check_take_profit_hit r.bar.close st.takeProfit2 st.current_position = false →
     (match st.current_position with
      | Position.LONG => r.exit_long_signal
      | Position.SHORT => r.exit_short_signal
      | Position.NEUTRAL => false) = true →
      riskStep cfg r st =
        ({ carryRow r st with exit_price := some r.bar.close,
                              exit_reason := "STRATEGY_EXIT" },
         { st with current_position := Position.NEUTRAL })) ∧
    (check_stop_loss_hit r.bar.close st.stopLoss st.current_position = false →
     (st.tp1_exit_executed = true ∨
      check_take_profit_hit r.bar.close st.takeProfit1 st.current_position = false) →
     check_take_profit_hit r.bar.close st.takeProfit2 st.current_position = false →
     (match st.current_position with
      | Position.LONG => r.exit_long_signal
      | Position.SHORT => r.exit_short_signal
      | Position.NEUTRAL => false) = false →
      riskStep cfg r st = (carryRow r st, st)) := by
  obtain ⟨pos, ep, slv, tp1v, tp2v, tpx⟩ := st
  cases pos with
  | NEUTRAL => exact absurd rfl h
  | LONG =>
    refine ⟨?_, ?_, ?_, ?_, ?_⟩
    · intro hsl
      simp_all [riskStep]
    · intro hsl htpx htp1
      simp_all [riskStep]
    · intro hsl htpx htp2
      rcases htpx with htpx | htpx <;> simp_all [riskStep]
    · intro hsl htpx htp2 hx
      rcases htpx with htpx | htpx <;> simp_all [riskStep]
    · intro hsl htpx htp2 hx
      rcases htpx with htpx | htpx <;> simp_all [riskStep]
  | SHORT =>
    refine ⟨?_, ?_, ?_, ?_, ?_⟩
    · intro hsl
      simp_all [riskStep]
    · intro hsl htpx htp1
      simp_all [riskStep]
    · intro hsl htpx htp2
      rcases htpx with htpx | htpx <;> simp_all [riskStep]
    · intro hsl htpx htp2 hx
      rcases htpx with htpx | htpx <;> simp_all [riskStep]
    · intro hsl htpx htp2 hx
      rcases htpx with htpx | htpx <;> simp_all [riskStep]

/-- A concrete LONG state used to witness `C1_risk_priority`: a position
entered at 100 with levels 80/115/130, on a bar whose close 120 breaches
both the unconsumed TP1 and, were it lower, would also test TP2. -/
def c1State : RiskState :=
  { current_position := Position.LONG, entryPrice := 100, stopLoss := 80
    takeProfit1 := 115, takeProfit2 := 130, tp1_exit_executed := false }

/-- A concrete signal row for the `C1_risk_priority` witness: close 120. -/
def c1Row : SigRow := blankSigRow (mkBar 2 120 0 0 0 0 0 0 10)

/-- Witness for `C1_risk_priority`: at close 120 with levels 80/115/130
and TP1 unconsumed, the step marks `tp1_hit` and consumes TP1 without
closing. -/
theorem C1_risk_priority_witness :
    riskStep repoConfig c1Row c1State =
      ({ carryRow c1Row c1State with tp1_hit := true },
       { c1State with tp1_exit_executed := true }) := by
  have h := C1_risk_priority repoConfig c1Row c1State (by decide)
  exact h.2.1 (by decide) (by decide) (by decide)

/-- Bar sequence on which the signal generator's internal tracker and the
risk state machine's position state diverge: a LONG opens at bar 1; at
bar 2 the generator emits `exit_long_signal` (bearish EMA crossover) and
goes `NEUTRAL`, but the risk machine consumes TP1 instead (close 115 = tp1,
priority over the strategy exit) and stays LONG; at bar 3 the generator,
`NEUTRAL` again, emits a fresh `long_signal` while the risk machine's
position is still LONG. -/
def c2bars : List Bar :=
  [mkBar 0 100 200 1 2 0 1 0 10, mkBar 1 100 200 3 2 2 1 0 10,
   mkBar 2 115 200 1 2 0 1 0 10, mkBar 3 100 200 3 2 2 1 0 10]

unseal Rat.mul Rat.add Rat.sub Rat.inv in
/-- Counterexample to claim C2: on `c2bars`, bar 3 carries a long-entry
signal while the risk state machine's position state on that bar is LONG
(non-`NONE`), refuting "no entry signal is ever produced on a bar at which
the Risk State Machine's own Position State is non-NONE". -/
theorem C2_counterexample :
    (((apply_risk_management repoConfig (generate_signals c2bars)).getD 3
        dummyRiskRow).sig.long_signal = true) ∧
    (((apply_risk_management repoConfig (generate_signals c2bars)).getD 3
        dummyRiskRow).position = some Position.LONG) := by
  decide

/-- Claim C2, amended: for every bar sequence, at most one of
{long-entry, short-entry} is true per bar; and no entry signal is ever
produced on a bar at which the *Signal Generator's own internal tracker*
(not the risk state machine's position state, which can diverge from it)
is non-`NEUTRAL`. -/
theorem C2_single_entry_amended :
    (∀ (bars : List Bar), ∀ row ∈ generate_signals bars,
      ¬(row.long_signal = true ∧ row.short_signal = true)) ∧
    (∀ (prev curr : Bar) (pos : Position),
      ((genStep prev curr pos).1.long_signal = true ∨
       (genStep prev curr pos).1.short_signal = true) →
      pos = Position.NEUTRAL) := by
  have hstep : ∀ (prev curr : Bar) (pos : Position),
      ¬((genStep prev curr pos).1.long_signal = true ∧
        (genStep prev curr pos).1.short_signal = true) := by
    intro prev curr pos
    cases pos <;> simp [genStep] <;> split_ifs <;> simp [blankSigRow]
  constructor
  · intro bars row hrow
    have haux : ∀ (rest : List Bar) (prev : Bar) (pos : Position),
        row ∈ generateSignalsAux prev rest pos →
        ¬(row.long_signal = true ∧ row.short_signal = true) := by
      intro rest
      induction rest with
      | nil => intro prev pos hmem; simp [generateSignalsAux] at hmem
      | cons b bs ih =>
        intro prev pos hmem
        simp only [generateSignalsAux, List.mem_cons] at hmem
        rcases hmem with hmem | hmem
        · subst hmem; exact hstep prev b pos
        · exact ih b (genStep prev b pos).2 hmem
    match bars, hrow with
    | b :: rest, hrow =>
      simp only [generate_signals, List.mem_cons] at hrow
      rcases hrow with hrow | hrow
      · subst hrow; simp [blankSigRow]
      · exact haux rest b Position.NEUTRAL hrow
  · intro prev curr pos hsig
    cases pos with
    | NEUTRAL => rfl
    | LONG =>
      exfalso
      revert hsig
      simp [genStep] <;> split_ifs <;> simp [blankSigRow]
    | SHORT =>
      exfalso
      revert hsig
      simp [genStep] <;> split_ifs <;> simp [blankSigRow]

/-- Witness for `C2_single_entry_amended`: the entry row at bar 1 of
`c2bars` does not carry both entry signals. -/
theorem C2_single_entry_amended_witness :
    ¬(((generate_signals c2bars).getD 1 dummySigRow).long_signal = true ∧
      ((generate_signals c2bars).getD 1 dummySigRow).short_signal = true) :=
  C2_single_entry_amended.1 c2bars
    ((generate_signals c2bars).getD 1 dummySigRow) (by decide)

/-- While a position is open and TP1 has already been consumed, a risk
step never marks `tp1_hit` again. -/
lemma riskStep_no_tp1_when_executed (cfg : RiskConfig) (r : SigRow) (st : RiskState)
    (h : st.tp1_exit_executed = true) : (riskStep cfg r st).1.tp1_hit = false := by
  obtain ⟨pos, ep, slv, tp1v, tp2v, tpx⟩ := st
  cases pos <;> simp_all [riskStep, blankRiskRow, carryRow] <;>
    split_ifs <;> simp_all [blankRiskRow, carryRow]

/-- A risk step that marks `tp1_hit` was taken from an open position with
TP1 not yet consumed, and only sets the consumed flag in the state. -/
lemma riskStep_tp1_hit_state (cfg : RiskConfig) (r : SigRow) (st : RiskState)
    (h : (riskStep cfg r st).1.tp1_hit = true) :
    st.current_position ≠ Position.NEUTRAL ∧
    (riskStep cfg r st).2 = { st with tp1_exit_executed := true } ∧
    st.tp1_exit_executed = false := by
  obtain ⟨pos, ep, slv, tp1v, tp2v, tpx⟩ := st
  cases pos <;> simp_all [riskStep, blankRiskRow, carryRow] <;>
    split_ifs at h ⊢ <;> simp_all [blankRiskRow, carryRow]

/-- A risk step that transitions an open position to `NEUTRAL` writes an
exit price on its row. -/
lemma riskStep_close_has_exit (cfg : RiskConfig) (r : SigRow) (st : RiskState)
    (h : st.current_position ≠ Position.NEUTRAL)
    (h2 : (riskStep cfg r st).2.current_position = Position.NEUTRAL) :
    (riskStep cfg r st).1.exit_price ≠ none := by
  obtain ⟨pos, ep, slv, tp1v, tp2v, tpx⟩ := st
  cases pos <;> simp_all [riskStep, blankRiskRow, carryRow] <;>
    split_ifs at h2 ⊢ <;> simp_all [blankRiskRow, carryRow]

/-- While a position stays open, the TP1-consumed flag is never cleared. -/
lemma riskStep_executed_persists (cfg : RiskConfig) (r : SigRow) (st : RiskState)
    (h : st.current_position ≠ Position.NEUTRAL)
    (h1 : st.tp1_exit_executed = true) :
    (riskStep cfg r st).2.tp1_exit_executed = true := by
  obtain ⟨pos, ep, slv, tp1v, tp2v, tpx⟩ := st
  cases pos <;> simp_all [riskStep] <;> split_ifs <;> simp_all

/-- Starting from an open position whose TP1 is already consumed, any
later `tp1_hit` mark can only come after a bar carrying an exit price. -/
lemma tp1_no_refire_until_close (cfg : RiskConfig) :
    ∀ (sigs : List SigRow) (st : RiskState),
      st.current_position ≠ Position.NEUTRAL → st.tp1_exit_executed = true →
      ∀ j, ((applyRiskAux cfg sigs st).getD j dummyRiskRow).tp1_hit = true →
      ∃ k, k ≤ j ∧ ((applyRiskAux cfg sigs st).getD k dummyRiskRow).exit_price ≠ none := by
  intro sigs
  induction sigs with
  | nil =>
    intro st hpos hexec j hj
    simp [applyRiskAux, dummyRiskRow, dummySigRow, blankRiskRow] at hj
  | cons r rest ih =>
    intro st hpos hexec j hj
    by_cases hexit : (riskStep cfg r st).1.exit_price = none
    · cases j with
      | zero =>
        rw [show applyRiskAux cfg (r :: rest) st =
              (riskStep cfg r st).1 :: applyRiskAux cfg rest (riskStep cfg r st).2 from rfl,
           List.getD_cons_zero] at hj
        rw [riskStep_no_tp1_when_executed cfg r st hexec] at hj
        exact absurd hj (by simp)
      | succ j' =>
        have hpos' : (riskStep cfg r st).2.current_position ≠ Position.NEUTRAL := by
          intro hN
          exact riskStep_close_has_exit cfg r st hpos hN hexit
        have hexec' := riskStep_executed_persists cfg r st hpos hexec
        have hj' : ((applyRiskAux cfg rest (riskStep cfg r st).2).getD j'
            dummyRiskRow).tp1_hit = true := by
          simpa [applyRiskAux] using hj
        obtain ⟨k, hk, hke⟩ := ih (riskStep cfg r st).2 hpos' hexec' j' hj'
        refine ⟨k + 1, Nat.succ_le_succ hk, ?_⟩
        simpa [applyRiskAux] using hke
    · refine ⟨0, Nat.zero_le j, ?_⟩
      simpa [applyRiskAux] using hexit

/-- Claim C3: (i) over any run of the risk loop, two bars marking `tp1_hit`
are always separated by a full close (an exit-price bar), so TP1 triggers
at most once per open position; (ii) on a TP1 bar the settlement step
realizes `(size × 0.5) × (tp1 − entry)` for LONG (mirrored for SHORT),
emits exactly one trade record with reason `TAKE_PROFIT1` and exit price
`tp1`, and exactly halves the carried size; (iii) a full close computes
its P&L from the carried (hence halved, after TP1) size; (iv) a bar with
no close and no TP1 leaves the carried size unchanged. -/
theorem C3_tp1_idempotence :
    (∀ (cfg : RiskConfig) (sigs : List SigRow) (st : RiskState) (i j : ℕ),
      i < j →
      ((applyRiskAux cfg sigs st).getD i dummyRiskRow).tp1_hit = true →
      ((applyRiskAux cfg sigs st).getD j dummyRiskRow).tp1_hit = true →
      ∃ k, i < k ∧ k ≤ j ∧
        ((applyRiskAux cfg sigs st).getD k dummyRiskRow).exit_price ≠ none) ∧
    (∀ (ic psf : ℚ) (prev : PnlRow) (r : RiskRow) (st : PnlState),
      (prev.risk.position.isNone && r.position.isSome) = false →
      r.position.isSome = true →
      exitPriceGtZero r.exit_price = false →
      r.tp1_hit = true →
      ((pnlStep ic psf prev r st).2.2 =
        { st with position_size := st.position_size * (1/2) }) ∧
      (st.current_position = some Position.LONG →
        (pnlStep ic psf prev r st).1.pnl =
          (st.position_size * (1/2)) * (r.take_profit1.getD 0 - st.entryPrice)) ∧
      (st.current_position = some Position.SHORT →
        (pnlStep ic psf prev r st).1.pnl =
          (st.position_size * (1/2)) * (st.entryPrice - r.take_profit1.getD 0)) ∧
      (pnlStep ic psf prev r st).2.1 =
        [{ entry_time := prev.risk.sig.bar.time, exit_time := r.sig.bar.time
           position := st.current_position, entryPrice := st.entryPrice
           exitPrice := r.take_profit1.getD 0, pnl := (pnlStep ic psf prev r st).1.pnl
           exit_reason := "TAKE_PROFIT1" }]) ∧
    (∀ (ic psf : ℚ) (prev : PnlRow) (r : RiskRow) (st : PnlState),
      (prev.risk.position.isNone && r.position.isSome) = false →
      r.position.isSome = true →
      exitPriceGtZero r.exit_price = true →
      (st.current_position = some Position.LONG →
        (pnlStep ic psf prev r st).1.pnl =
          st.position_size * (r.exit_price.getD 0 - st.entryPrice)) ∧
      (st.current_position = some Position.SHORT →
        (pnlStep ic psf prev r st).1.pnl =
          st.position_size * (st.entryPrice - r.exit_price.getD 0))) ∧
    (∀ (ic psf : ℚ) (prev : PnlRow) (r : RiskRow) (st : PnlState),
      (prev.risk.position.isNone && r.position.isSome) = false →
      (r.position.isSome && exitPriceGtZero r.exit_price) = false →
      (r.position.isSome && r.tp1_hit) = false →
      (pnlStep ic psf prev r st).2.2 = st ∧ (pnlStep ic psf prev r st).1.pnl = 0) := by
  refine ⟨?_, ?_, ?_, ?_⟩
  · intro cfg sigs
    induction sigs with
    | nil =>
      intro st i j hij hi hj
      simp [applyRiskAux, dummyRiskRow, dummySigRow, blankRiskRow] at hi
    | cons r rest ih =>
      intro st i j hij hi hj
      cases i with
      | zero =>
        have hi0 : (riskStep cfg r st).1.tp1_hit = true := by
          simpa [applyRiskAux] using hi
        obtain ⟨hne, hst', _⟩ := riskStep_tp1_hit_state cfg r st hi0
        cases j with
        | zero => exact absurd hij (lt_irrefl 0)
        | succ j' =>
          have hj' : ((applyRiskAux cfg rest (riskStep cfg r st).2).getD j'
              dummyRiskRow).tp1_hit = true := by
            simpa [applyRiskAux] using hj
          have hpos' : (riskStep cfg r st).2.current_position ≠ Position.NEUTRAL := by
            rw [hst']; simpa using hne
          have hexec' : (riskStep cfg r st).2.tp1_exit_executed = true := by
            rw [hst']
          obtain ⟨k, hk, hke⟩ :=
            tp1_no_refire_until_close cfg rest (riskStep cfg r st).2 hpos' hexec' j' hj'
          refine ⟨k + 1, Nat.succ_pos k, Nat.succ_le_succ hk, ?_⟩
          simpa [applyRiskAux] using hke
      | succ i' =>
        cases j with
        | zero => exact absurd hij (by omega)
        | succ j' =>
          have hij' : i' < j' := Nat.lt_of_succ_lt_succ hij
          have hi' : ((applyRiskAux cfg rest (riskStep cfg r st).2).getD i'
              dummyRiskRow).tp1_hit = true := by
            simpa [applyRiskAux] using hi
          have hj' : ((applyRiskAux cfg rest (riskStep cfg r st).2).getD j'
              dummyRiskRow).tp1_hit = true := by
            simpa [applyRiskAux] using hj
          obtain ⟨k, hk1, hk2, hke⟩ := ih (riskStep cfg r st).2 i' j' hij' hi' hj'
          refine ⟨k + 1, Nat.succ_lt_succ hk1, Nat.succ_le_succ hk2, ?_⟩
          simpa [applyRiskAux] using hke
  · intro ic psf prev r st hopen hpos hexit htp1
    refine ⟨?_, ?_, ?_, ?_⟩
    · simp only [pnlStep]
      rw [hopen]
      simp [hpos, hexit, htp1]
    · intro hdir
      simp only [pnlStep]
      rw [hopen]
      simp [hpos, hexit, htp1, hdir]
    · intro hdir
      simp only [pnlStep]
      rw [hopen]
      simp [hpos, hexit, htp1, hdir]
    · simp only [pnlStep]
      rw [hopen]
      simp [hpos, hexit, htp1]
  · intro ic psf prev r st hopen hpos hexit
    refine ⟨?_, ?_⟩ <;> intro hdir
    · simp only [pnlStep]
      rw [hopen]
      simp [hpos, hexit, hdir]
    · simp only [pnlStep]
      rw [hopen]
      simp [hpos, hexit, hdir]
  · intro ic psf prev r st hopen hc1 hc2
    constructor
    · simp only [pnlStep]
      rw [hopen]
      simp [hc1, hc2]
    · simp only [pnlStep]
      rw [hopen]
      simp [hc1, hc2]

/-- Previous settlement row for the `C3_tp1_idempotence` witness: a LONG
position carried at bar 1 (entry 100, levels 80/115/130, equity 10000). -/
def c3prev : PnlRow :=
  { risk := { blankRiskRow (blankSigRow (mkBar 1 100 0 0 0 0 0 0 10)) with
                position := some Position.LONG, entry_price := some 100,
                stop_loss := some 80, take_profit1 := some 115, take_profit2 := some 130 }
    pnl := 0, cumulative_pnl := 0, equity := 10000, drawdown := 0, max_equity := 10000 }

/-- Current risk row for the `C3_tp1_idempotence` witness: bar 2, close
115, TP1 marked hit, no exit price. -/
def c3r : RiskRow :=
  { blankRiskRow (blankSigRow (mkBar 2 115 0 0 0 0 0 0 10)) with
      position := some Position.LONG, entry_price := some 100,
      stop_loss := some 80, take_profit1 := some 115, take_profit2 := some 130,
      tp1_hit := true }

/-- Settlement tracking state for the `C3_tp1_idempotence` witness: LONG,
size 10, entry 100. -/
def c3st : PnlState :=
  { current_position := some Position.LONG, position_size := 10, entryPrice := 100 }

/-- Witness for `C3_tp1_idempotence`: on the concrete TP1 bar `c3r`, the
settlement step halves the carried size. -/
theorem C3_tp1_idempotence_witness :
    (pnlStep 10000 (1/10) c3prev c3r c3st).2.2 =
      { c3st with position_size := c3st.position_size * (1/2) } :=
  (C3_tp1_idempotence.2.1 10000 (1/10) c3prev c3r c3st
    (by decide) (by decide) (by decide) (by decide)).1

/-- The bar-to-bar bookkeeping relations of the settlement output,
chained along consecutive rows: `equity = prev.equity + pnl`,
`equity = initial_capital + cumulative_pnl`,
`cumulative_pnl = prev.cumulative_pnl + pnl`, and `max_equity`
non-decreasing. -/
def equityChain (ic : ℚ) : PnlRow → List PnlRow → Prop
  | _, [] => True
  | p, r :: rest =>
    r.equity = p.equity + r.pnl ∧ r.equity = ic + r.cumulative_pnl ∧
    r.cumulative_pnl = p.cumulative_pnl + r.pnl ∧ p.max_equity ≤ r.max_equity ∧
    equityChain ic r rest

/-- The settlement loop preserves `equity = ic + cumulative_pnl` and
produces rows satisfying `equityChain`. -/
lemma equityChain_calcPnlAux (ic psf : ℚ) :
    ∀ (rrows : List RiskRow) (prev : PnlRow) (st : PnlState),
      prev.equity = ic + prev.cumulative_pnl →
      equityChain ic prev (calcPnlAux ic psf prev rrows st).1 := by
  intro rrows
  induction rrows with
  | nil => intro prev st h; simp [calcPnlAux, equityChain]
  | cons r rest ih =>
    intro prev st h
    have h1 : (pnlStep ic psf prev r st).1.cumulative_pnl =
        prev.cumulative_pnl + (pnlStep ic psf prev r st).1.pnl := rfl
    have h2 : (pnlStep ic psf prev r st).1.equity =
        ic + (pnlStep ic psf prev r st).1.cumulative_pnl := rfl
    have h4 : (pnlStep ic psf prev r st).1.max_equity =
        max prev.max_equity (pnlStep ic psf prev r st).1.equity := rfl
    simp only [calcPnlAux, equityChain]
    refine ⟨?_, h2, h1, ?_, ?_⟩
    · rw [h2, h1, h]; ring
    · rw [h4]; exact le_max_left _ _
    · exact ih (pnlStep ic psf prev r st).1 (pnlStep ic psf prev r st).2.2 h2

/-- Claim C4: in the settlement output, row 0 carries `equity =
initial_capital` with zero `pnl` and `cumulative_pnl`, and every later
row `i` satisfies `equity[i] = equity[i−1] + pnl[i]`,
`equity[i] = initial_capital + cumulative_pnl[i]`,
`cumulative_pnl[i] = cumulative_pnl[i−1] + pnl[i]`, and
`max_equity[i−1] ≤ max_equity[i]` (so `max_equity` is non-decreasing). -/
theorem C4_equity_continuity (ic psf : ℚ) (rrows : List RiskRow) :
    match (calculate_pnl ic psf rrows).1 with
    | [] => True
    | r0 :: rest =>
      r0.equity = ic ∧ r0.pnl = 0 ∧ r0.cumulative_pnl = 0 ∧ r0.max_equity = ic ∧
      equityChain ic r0 rest := by
  cases rrows with
  | nil => simp [calculate_pnl]
  | cons r rest =>
    simp only [calculate_pnl]
    exact ⟨rfl, rfl, rfl, rfl,
      equityChain_calcPnlAux ic psf rest (initPnlRow ic r) initialPnlState (by
        simp [initPnlRow])⟩

/-- Bars driving the `C5` counterexample: a SHORT entry at close 100 with
a huge ATR (10000) at bar 1 (stop-loss level 20100), and a stop-loss bar
at close 20100 at bar 2, losing 20× the account. -/
def c5bars : List Bar :=
  [mkBar 0 100 200 2 1 1 0 0 10000, mkBar 1 100 200 1 2 0 1 (-1) 10000,
   mkBar 2 20100 200 1 2 0 1 (-1) 10000]

unseal Rat.mul Rat.add Rat.sub Rat.inv in
/-- Counterexample to claim C5: on `c5bars` the settlement output at bar 2
has `max_equity = 10000 > 0` but `drawdown = 2000`, far above 100 (equity
went negative), refuting `drawdown ≤ 100` whenever `max_equity > 0`. -/
theorem C5_counterexample :
    ((runPipeline repoConfig 10000 (1/10) c5bars).1.getD 2 dummyPnlRow).max_equity
      = 10000 ∧
    (0 : ℚ) < 10000 ∧
    ((runPipeline repoConfig 10000 (1/10) c5bars).1.getD 2 dummyPnlRow).drawdown
      = 2000 ∧
    ¬(((runPipeline repoConfig 10000 (1/10) c5bars).1.getD 2 dummyPnlRow).drawdown
      ≤ 100) := by
  decide

/-- Every settlement output row keeps `equity ≤ max_equity`, hence a
non-negative drawdown; the drawdown is `≤ 100` once equity is also
non-negative. -/
lemma pnlStep_dd_bounds (ic psf : ℚ) (prev : PnlRow) (r : RiskRow) (st : PnlState) :
    0 ≤ (pnlStep ic psf prev r st).1.drawdown ∧
    (0 < (pnlStep ic psf prev r st).1.max_equity →
     0 ≤ (pnlStep ic psf prev r st).1.equity →
     (pnlStep ic psf prev r st).1.drawdown ≤ 100) := by
  have hle : (pnlStep ic psf prev r st).1.equity ≤
      (pnlStep ic psf prev r st).1.max_equity := le_max_right _ _
  have hdd : (pnlStep ic psf prev r st).1.drawdown =
      if (pnlStep ic psf prev r st).1.max_equity > 0 then
        ((pnlStep ic psf prev r st).1.max_equity - (pnlStep ic psf prev r st).1.equity)
          / (pnlStep ic psf prev r st).1.max_equity * 100
      else 0 := rfl
  constructor
  · rw [hdd]
    split_ifs with hpos
    · have hnum : 0 ≤ (pnlStep ic psf prev r st).1.max_equity -
          (pnlStep ic psf prev r st).1.equity := sub_nonneg.2 hle
      exact mul_nonneg (div_nonneg hnum (le_of_lt hpos)) (by norm_num)
    · exact le_refl 0
  · intro hpos heq
    rw [hdd, if_pos hpos]
    have hfrac : ((pnlStep ic psf prev r st).1.max_equity -
        (pnlStep ic psf prev r st).1.equity) /
        (pnlStep ic psf prev r st).1.max_equity ≤ 1 := by
      rw [div_le_one hpos]
      linarith
    calc ((pnlStep ic psf prev r st).1.max_equity -
            (pnlStep ic psf prev r st).1.equity) /
            (pnlStep ic psf prev r st).1.max_equity * 100
        ≤ 1 * 100 := by
          exact mul_le_mul_of_nonneg_right hfrac (by norm_num)
      _ = 100 := one_mul 100

/-- Claim C5, amended: every row of the settlement output has
`0 ≤ drawdown`; and `drawdown ≤ 100` holds whenever `max_equity > 0`
*and additionally* `equity ≥ 0` — the bound fails when equity goes
negative, as `C5_counterexample` shows. -/
theorem C5_drawdown_amended (ic psf : ℚ) (rrows : List RiskRow) :
    ∀ row ∈ (calculate_pnl ic psf rrows).1,
      0 ≤ row.drawdown ∧
      (0 < row.max_equity → 0 ≤ row.equity → row.drawdown ≤ 100) := by
  have haux : ∀ (rs : List RiskRow) (prev : PnlRow) (st : PnlState),
      ∀ row ∈ (calcPnlAux ic psf prev rs st).1,
        0 ≤ row.drawdown ∧
        (0 < row.max_equity → 0 ≤ row.equity → row.drawdown ≤ 100) := by
    intro rs
    induction rs with
    | nil => intro prev st row hrow; simp [calcPnlAux] at hrow
    | cons r rest ih =>
      intro prev st row hrow
      simp only [calcPnlAux, List.mem_cons] at hrow
      rcases hrow with hrow | hrow
      · subst hrow; exact pnlStep_dd_bounds ic psf prev r st
      · exact ih (pnlStep ic psf prev r st).1 (pnlStep ic psf prev r st).2.2 row hrow
  intro row hrow
  cases rrows with
  | nil => simp [calculate_pnl] at hrow
  | cons r rest =>
    simp only [calculate_pnl, List.mem_cons] at hrow
    rcases hrow with hrow | hrow
    · subst hrow
      refine ⟨le_refl 0, ?_⟩
      intro _ _
      norm_num [initPnlRow]
    · exact haux rest (initPnlRow ic r) initialPnlState row hrow

unseal Rat.mul Rat.add Rat.sub Rat.inv in
/-- Witness for `C5_drawdown_amended`: the drawdown at bar 2 of the
`c5bars` run is non-negative. -/
theorem C5_drawdown_amended_witness :
    0 ≤ ((calculate_pnl 10000 (1/10)
        (apply_risk_management repoConfig (generate_signals c5bars))).1.getD 2
        dummyPnlRow).drawdown :=
  (C5_drawdown_amended 10000 (1/10)
    (apply_risk_management repoConfig (generate_signals c5bars))
    ((calculate_pnl 10000 (1/10)
        (apply_risk_management repoConfig (generate_signals c5bars))).1.getD 2
        dummyPnlRow)
    (by decide)).1

/-- The risk configuration hypothesized by scenario claim C6:
`k_sl = 1.5`, `k_tp1 = 2.0`, `k_tp2 = 3.5`. -/
def cfg6 : RiskConfig :=
  { stop_loss_atr_multiplier := 3/2
    take_profit1_atr_multiplier := 2
    take_profit2_atr_multiplier := 7/2 }

/-- Bars for the C6 scenario as literally claimed: LONG entry at close 100
with ATR 10 at bar 1, next bar close 86. -/
def c6bars : List Bar :=
  [mkBar 0 100 0 1 2 0 1 0 10, mkBar 1 100 0 3 2 2 1 0 10,
   mkBar 2 86 0 3 2 2 1 0 10]

/-- Bars for the amended C6 scenario: same entry, next bar close 84
(at or below the stop-loss level 85). -/
def c6barsB : List Bar :=
  [mkBar 0 100 0 1 2 0 1 0 10, mkBar 1 100 0 3 2 2 1 0 10,
   mkBar 2 84 0 3 2 2 1 0 10]

unseal Rat.mul Rat.add Rat.sub Rat.inv in
/-- Counterexample to claim C6: with `k_sl = 1.5, k_tp1 = 2.0, k_tp2 = 3.5`
the levels for a LONG entered at close 100 with ATR 10 are indeed
`stop_loss = 85, tp1 = 120, tp2 = 135`; but on the next bar closing at 86
the stop-loss does **not** fire (the code requires `close ≤ stop_loss` and
`86 ≤ 85` is false): no exit price, no reason, no `sl_hit`, position still
open. -/
theorem C6_counterexample :
    ((apply_risk_management cfg6 (generate_signals c6bars)).getD 1
        dummyRiskRow).stop_loss = some 85 ∧
    ((apply_risk_management cfg6 (generate_signals c6bars)).getD 1
        dummyRiskRow).take_profit1 = some 120 ∧
    ((apply_risk_management cfg6 (generate_signals c6bars)).getD 1
        dummyRiskRow).take_profit2 = some 135 ∧
    ((apply_risk_management cfg6 (generate_signals c6bars)).getD 2
        dummyRiskRow).sig.bar.close = 86 ∧
    ((apply_risk_management cfg6 (generate_signals c6bars)).getD 2
        dummyRiskRow).exit_price = none ∧
    ((apply_risk_management cfg6 (generate_signals c6bars)).getD 2
        dummyRiskRow).exit_reason = "" ∧
    ((apply_risk_management cfg6 (generate_signals c6bars)).getD 2
        dummyRiskRow).sl_hit = false ∧
    ((apply_risk_management cfg6 (generate_signals c6bars)).getD 2
        dummyRiskRow).position = some Position.LONG := by
  decide

unseal Rat.mul Rat.add Rat.sub Rat.inv in
/-- Claim C6, amended: with `k_sl = 1.5, k_tp1 = 2.0, k_tp2 = 3.5`, a LONG
entered at close 100 with ATR 10 gets `stop_loss = 85, tp1 = 120,
tp2 = 135`; and if the next bar closes **at or below 85** (here 84), the
stop-loss fires: exit at price 85 with reason `STOP_LOSS`, and the
realized P&L of that bar is negative (−150 at size 10). -/
theorem C6_scenario1_amended :
    ((apply_risk_management cfg6 (generate_signals c6barsB)).getD 1
        dummyRiskRow).stop_loss = some 85 ∧
    ((apply_risk_management cfg6 (generate_signals c6barsB)).getD 1
        dummyRiskRow).take_profit1 = some 120 ∧
    ((apply_risk_management cfg6 (generate_signals c6barsB)).getD 1
        dummyRiskRow).take_profit2 = some 135 ∧
    ((apply_risk_management cfg6 (generate_signals c6barsB)).getD 2
        dummyRiskRow).exit_price = some 85 ∧
    ((apply_risk_management cfg6 (generate_signals c6barsB)).getD 2
        dummyRiskRow).exit_reason = "STOP_LOSS" ∧
    ((apply_risk_management cfg6 (generate_signals c6barsB)).getD 2
        dummyRiskRow).sl_hit = true ∧
    ((runPipeline cfg6 10000 (1/10) c6barsB).1.getD 2 dummyPnlRow).pnl = -150 ∧
    ((runPipeline cfg6 10000 (1/10) c6barsB).1.getD 2 dummyPnlRow).pnl < 0 := by
  decide

/-- Bars driving the `C7` counterexample: LONG entry at bar 1, strategy
exit at bar 2, and a fresh LONG entry at bar 3 — i.e. a position that
opens on the bar immediately following a close bar. -/
def c7bars : List Bar :=
  [mkBar 0 100 0 1 2 0 1 0 10, mkBar 1 100 0 3 2 2 1 0 10,
   mkBar 2 100 0 1 2 0 1 0 10, mkBar 3 100 0 3 2 2 1 0 10]

unseal Rat.mul Rat.add Rat.sub Rat.inv in
/-- Counterexample to claim C7: on `c7bars`, bar 2 closes the first position
(`STRATEGY_EXIT`, so its `position` annotation is non-NaN) and the risk
machine opens a new LONG at bar 3 (entry price 100); the settlement's
open-detection (`isna(position[i-1]) and not isna(position[i])`) misses
this opening, leaving the carried unit size at 0 — not the claimed
`position_size_fraction × equity[i−1] / entry_price = 0.1 × 10000 / 100 =
10`. -/
theorem C7_counterexample :
    ((apply_risk_management repoConfig (generate_signals c7bars)).getD 2
        dummyRiskRow).exit_reason = "STRATEGY_EXIT" ∧
    ((apply_risk_management repoConfig (generate_signals c7bars)).getD 2
        dummyRiskRow).position = some Position.LONG ∧
    ((apply_risk_management repoConfig (generate_signals c7bars)).getD 3
        dummyRiskRow).position = some Position.LONG ∧
    ((apply_risk_management repoConfig (generate_signals c7bars)).getD 3
        dummyRiskRow).entry_price = some 100 ∧
    ((runPipeline repoConfig 10000 (1/10) c7bars).1.getD 2 dummyPnlRow).equity
      = 10000 ∧
    ((calcPnlStates 10000 (1/10)
        (apply_risk_management repoConfig (generate_signals c7bars))).getD 2
        initialPnlState).position_size = 0 ∧
    ¬((0 : ℚ) = (1/10) * 10000 / 100) := by
  decide

/-- Claim C7, amended: the settlement sets the unit size to
`position_size_fraction × equity[i−1] / entry_price` on the opening bar
*provided the previous bar carries no position annotation* (an opening on
the bar immediately after a close bar is missed and the size stays as it
was, see `C7_counterexample`); once tracked, the size stays fixed on every
bar with no full close and no TP1, and is exactly halved on a TP1 bar. -/
theorem C7_position_sizing_amended :
    (∀ (ic psf : ℚ) (prev : PnlRow) (r : RiskRow) (st : PnlState),
      prev.risk.position = none →
      r.position.isSome = true →
      exitPriceGtZero r.exit_price = false →
      r.tp1_hit = false →
      (pnlStep ic psf prev r st).2.2 =
        { current_position := r.position
          position_size := psf * prev.equity / r.entry_price.getD 0
          entryPrice := r.entry_price.getD 0 }) ∧
    (∀ (ic psf : ℚ) (prev : PnlRow) (r : RiskRow) (st : PnlState),
      (prev.risk.position.isNone && r.position.isSome) = false →
      (r.position.isSome && exitPriceGtZero r.exit_price) = false →
      (r.position.isSome && r.tp1_hit) = false →
      (pnlStep ic psf prev r st).2.2.position_size = st.position_size) ∧
    (∀ (ic psf : ℚ) (prev : PnlRow) (r : RiskRow) (st : PnlState),
      (prev.risk.position.isNone && r.position.isSome) = false →
      r.position.isSome = true →
      exitPriceGtZero r.exit_price = false →
      r.tp1_hit = true →
      (pnlStep ic psf prev r st).2.2.position_size =
        st.position_size * (1/2)) := by
  refine ⟨?_, ?_, ?_⟩
  · intro ic psf prev r st hprev hpos hexit htp1
    simp [pnlStep, hprev, hpos, hexit, htp1]
  · intro ic psf prev r st hopen hc1 hc2
    simp only [pnlStep]
    rw [hopen]
    simp [hc1, hc2]
  · intro ic psf prev r st hopen hpos hexit htp1
    simp only [pnlStep]
    rw [hopen]
    simp [hpos, hexit, htp1]

/-- Previous settlement row for the `C7_position_sizing_amended` witness:
no position annotation, equity 10000. -/
def c7prev : PnlRow := initPnlRow 10000 dummyRiskRow

/-- Current risk row for the `C7_position_sizing_amended` witness: a LONG
opening bar with entry price 100, no exit, no TP1. -/
def c7r : RiskRow :=
  { blankRiskRow (blankSigRow (mkBar 1 100 0 0 0 0 0 0 10)) with
      position := some Position.LONG, entry_price := some 100,
      stop_loss := some 80, take_profit1 := some 115, take_profit2 := some 130 }

/-- Witness for `C7_position_sizing_amended`: the opening-bar sizing rule
applied at `c7prev`/`c7r`. -/
theorem C7_position_sizing_amended_witness :
    (pnlStep 10000 (1/10) c7prev c7r initialPnlState).2.2 =
      { current_position := c7r.position
        position_size := (1/10) * c7prev.equity / c7r.entry_price.getD 0
        entryPrice := c7r.entry_price.getD 0 } :=
  C7_position_sizing_amended.1 10000 (1/10) c7prev c7r initialPnlState
    (by decide) (by decide) (by decide) (by decide)

/-- Claim C8: an exit signal arriving while the risk state machine's
position is `NEUTRAL` is a no-op: the risk step writes no exit price, no
exit reason and no hit flags (its row is the freshly initialized
`blankRiskRow`) and leaves the loop state unchanged, whatever the exit
signal columns say; and on a bar with no position annotation the
settlement step books `pnl = 0`, emits no trade record, keeps its
tracking state, and leaves equity unchanged. -/
theorem C8_exit_signal_noop :
    (∀ (cfg : RiskConfig) (r : SigRow) (st : RiskState),
      st.current_position = Position.NEUTRAL →
      r.long_signal = false → r.short_signal = false →
      riskStep cfg r st = (blankRiskRow r, st)) ∧
    (∀ (ic psf : ℚ) (prev : PnlRow) (r : RiskRow) (st : PnlState),
      r.position = none →
      (pnlStep ic psf prev r st).1.pnl = 0 ∧
      (pnlStep ic psf prev r st).2.1 = [] ∧
      (pnlStep ic psf prev r st).2.2 = st ∧
      (prev.equity = ic + prev.cumulative_pnl →
        (pnlStep ic psf prev r st).1.equity = prev.equity)) := by
  constructor
  · intro cfg r st hpos hl hs
    obtain ⟨pos, ep, slv, tp1v, tp2v, tpx⟩ := st
    cases pos <;> simp_all [riskStep]
  · intro ic psf prev r st hn
    have hsome : r.position.isSome = false := by simp [hn]
    refine ⟨?_, ?_, ?_, ?_⟩
    · simp [pnlStep, hsome]
    · simp [pnlStep, hsome]
    · simp [pnlStep, hsome]
    · intro hinv
      have : (pnlStep ic psf prev r st).1.equity =
          ic + (prev.cumulative_pnl + (pnlStep ic psf prev r st).1.pnl) := rfl
      rw [this]
      have hz : (pnlStep ic psf prev r st).1.pnl = 0 := by simp [pnlStep, hsome]
      rw [hz, add_zero, ← hinv]

/-- Signal row for the `C8_exit_signal_noop` witness: an exit-long signal
fires with no entry signal on the bar. -/
def c8r : SigRow :=
  { blankSigRow (mkBar 5 100 0 1 2 0 1 0 10) with exit_long_signal := true }

/-- Witness for `C8_exit_signal_noop`: the risk step on `c8r` from the
idle state is a no-op. -/
theorem C8_exit_signal_noop_witness :
    riskStep repoConfig c8r initialRiskState = (blankRiskRow c8r, initialRiskState) :=
  C8_exit_signal_noop.1 repoConfig c8r initialRiskState rfl (by decide) (by decide)

/-- Bars driving the `C9` counterexample: LONG entry at bar 1 (time 1),
no event at bar 2, strategy exit at bar 3 — so the recorded trade spans
entry bar 1 to exit bar 3. -/
def c9bars : List Bar :=
  [mkBar 0 100 0 1 2 0 1 0 10, mkBar 1 100 0 3 2 2 1 0 10,
   mkBar 2 100 0 3 2 2 1 0 10, mkBar 3 100 0 1 2 0 1 0 10]

unseal Rat.mul Rat.add Rat.sub Rat.inv in
/-- Counterexample to claim C9: on `c9bars` the position opens at bar 1
(timestamp 1) and closes at bar 3, but the emitted trade record carries
`entry_time = 2` — the timestamp of the bar immediately preceding the
exit bar (`data.index[idx-1]`), not of the bar on which the position was
actually opened. -/
theorem C9_counterexample :
    ((apply_risk_management repoConfig (generate_signals c9bars)).getD 1
        dummyRiskRow).position = some Position.LONG ∧
    ((apply_risk_management repoConfig (generate_signals c9bars)).getD 1
        dummyRiskRow).sig.bar.time = 1 ∧
    ((apply_risk_management repoConfig (generate_signals c9bars)).getD 0
        dummyRiskRow).position = none ∧
    (runPipeline repoConfig 10000 (1/10) c9bars).2 =
      [{ entry_time := 2, exit_time := 3, position := some Position.LONG
         entryPrice := 100, exitPrice := 100, pnl := 0
         exit_reason := "STRATEGY_EXIT" }] ∧
    (2 : ℕ) ≠ 1 := by
  decide

/-- Claim C9, amended: every trade record emitted by the settlement carries
the exit bar's timestamp, exit price (the TP1 level for partial exits),
exit reason, direction and realized P&L, together with the tracked entry
price of the position — but its `entry_time` field holds the timestamp of
the bar immediately preceding the exit bar (`data.index[idx-1]`), which
is the actual entry time only when the position lasted a single bar. -/
theorem C9_trade_record_amended :
    (∀ (ic psf : ℚ) (prev : PnlRow) (r : RiskRow) (st : PnlState),
      (prev.risk.position.isNone && r.position.isSome) = false →
      r.position.isSome = true →
      exitPriceGtZero r.exit_price = true →
      (pnlStep ic psf prev r st).2.1 =
        [{ entry_time := prev.risk.sig.bar.time, exit_time := r.sig.bar.time
           position := st.current_position, entryPrice := st.entryPrice
           exitPrice := r.exit_price.getD 0
           pnl := (pnlStep ic psf prev r st).1.pnl
           exit_reason := r.exit_reason }]) ∧
    (∀ (ic psf : ℚ) (prev : PnlRow) (r : RiskRow) (st : PnlState),
      (prev.risk.position.isNone && r.position.isSome) = false →
      r.position.isSome = true →
      exitPriceGtZero r.exit_price = false →
      r.tp1_hit = true →
      (pnlStep ic psf prev r st).2.1 =
        [{ entry_time := prev.risk.sig.bar.time, exit_time := r.sig.bar.time
           position := st.current_position, entryPrice := st.entryPrice
           exitPrice := r.take_profit1.getD 0
           pnl := (pnlStep ic psf prev r st).1.pnl
           exit_reason := "TAKE_PROFIT1" }]) := by
  constructor
  · intro ic psf prev r st hopen hpos hexit
    simp only [pnlStep]
    rw [hopen]
    simp [hpos, hexit]
  · intro ic psf prev r st hopen hpos hexit htp1
    simp only [pnlStep]
    rw [hopen]
    simp [hpos, hexit, htp1]

/-- Current risk row for the `C9_trade_record_amended` witness: a
stop-loss close bar at time 2, exit price 80. -/
def c9r : RiskRow :=
  { blankRiskRow (blankSigRow (mkBar 2 78 0 0 0 0 0 0 10)) with
      position := some Position.LONG, entry_price := some 100,
      stop_loss := some 80, take_profit1 := some 115, take_profit2 := some 130,
      exit_price := some 80, exit_reason := "STOP_LOSS", sl_hit := true }

/-- Witness for `C9_trade_record_amended`: the full-close trade emitted on
`c9r` records `entry_time` as the preceding bar's timestamp. -/
theorem C9_trade_record_amended_witness :
    (pnlStep 10000 (1/10) c3prev c9r c3st).2.1 =
      [{ entry_time := c3prev.risk.sig.bar.time, exit_time := c9r.sig.bar.time
         position := c3st.current_position, entryPrice := c3st.entryPrice
         exitPrice := c9r.exit_price.getD 0
         pnl := (pnlStep 10000 (1/10) c3prev c9r c3st).1.pnl
         exit_reason := c9r.exit_reason }] :=
  C9_trade_record_amended.1 10000 (1/10) c3prev c9r c3st
    (by decide) (by decide) (by decide)

/-- Each stage's step keeps the nested upstream row intact. -/
lemma genStep_preserves_bar (prev curr : Bar) (pos : Position) :
    (genStep prev curr pos).1.bar = curr := by
  cases pos <;> simp [genStep] <;> split_ifs <;> rfl

/-- The risk step never modifies the signal-stage columns of its row. -/
lemma riskStep_preserves_sig (cfg : RiskConfig) (r : SigRow) (st : RiskState) :
    (riskStep cfg r st).1.sig = r := by
  obtain ⟨pos, ep, slv, tp1v, tp2v, tpx⟩ := st
  cases pos <;> simp [riskStep] <;> split_ifs <;> rfl

/-- The generator loop returns exactly the input bars, annotated. -/
lemma generateSignalsAux_map_bar :
    ∀ (rest : List Bar) (prev : Bar) (pos : Position),
      (generateSignalsAux prev rest pos).map (fun r => r.bar) = rest := by
  intro rest
  induction rest with
  | nil => intro prev pos; rfl
  | cons b bs ih =>
    intro prev pos
    simp [generateSignalsAux, genStep_preserves_bar, ih]

/-- The risk loop returns exactly the input signal rows, annotated. -/
lemma applyRiskAux_map_sig (cfg : RiskConfig) :
    ∀ (sigs : List SigRow) (st : RiskState),
      (applyRiskAux cfg sigs st).map (fun r => r.sig) = sigs := by
  intro sigs
  induction sigs with
  | nil => intro st; rfl
  | cons r rest ih =>
    intro st
    simp [applyRiskAux, riskStep_preserves_sig, ih]

/-- The settlement loop returns exactly the input risk rows, annotated. -/
lemma calcPnlAux_map_risk (ic psf : ℚ) :
    ∀ (rrows : List RiskRow) (prev : PnlRow) (st : PnlState),
      ((calcPnlAux ic psf prev rrows st).1).map (fun r => r.risk) = rrows := by
  intro rrows
  induction rrows with
  | nil => intro prev st; rfl
  | cons r rest ih =>
    intro prev st
    have hstep : (pnlStep ic psf prev r st).1.risk = r := rfl
    simp [calcPnlAux, hstep, ih]

/-- Claim C10: each pipeline stage only appends columns and never alters an
existing field: projecting the signal rows back to bars recovers the input
bars, projecting the risk rows back recovers the signal rows, projecting
the settlement rows back recovers the risk rows, and the bars surviving to
the end of the pipeline are exactly the input bars with their OHLCV and
indicator fields untouched. -/
theorem C10_frame_effect (bars : List Bar) (cfg : RiskConfig) (ic psf : ℚ) :
    ((generate_signals bars).map (fun r => r.bar) = bars) ∧
    (∀ sigs : List SigRow,
      (apply_risk_management cfg sigs).map (fun r => r.sig) = sigs) ∧
    (∀ rrows : List RiskRow,
      ((calculate_pnl ic psf rrows).1).map (fun r => r.risk) = rrows) ∧
    ((runPipeline cfg ic psf bars).1.map (fun r => r.risk.sig.bar) = bars) := by
  have hgen : ∀ bs : List Bar, (generate_signals bs).map (fun r => r.bar) = bs := by
    intro bs
    cases bs with
    | nil => rfl
    | cons b rest =>
      simp [generate_signals, blankSigRow, generateSignalsAux_map_bar]
  have hrisk : ∀ sigs : List SigRow,
      (apply_risk_management cfg sigs).map (fun r => r.sig) = sigs := by
    intro sigs
    cases sigs with
    | nil => rfl
    | cons s rest =>
      simp [apply_risk_management, blankRiskRow, applyRiskAux_map_sig]
  have hpnl : ∀ rrows : List RiskRow,
      ((calculate_pnl ic psf rrows).1).map (fun r => r.risk) = rrows := by
    intro rrows
    cases rrows with
    | nil => rfl
    | cons r rest =>
      simp [calculate_pnl, initPnlRow, calcPnlAux_map_risk]
  refine ⟨hgen bars, hrisk, hpnl, ?_⟩
  have : (runPipeline cfg ic psf bars).1.map (fun r => r.risk.sig.bar) =
      ((((runPipeline cfg ic psf bars).1.map (fun r => r.risk)).map
        (fun r => r.sig)).map (fun r => r.bar)) := by
    simp [List.map_map]
  rw [this]
  rw [show (runPipeline cfg ic psf bars).1 =
        (calculate_pnl ic psf
          (apply_risk_management cfg (generate_signals bars))).1 from rfl]
  rw [hpnl, hrisk, hgen]

end TradingBot
